import Mathlib

/-
  Verification development for the caterpillar-plugins "Always Online"
  resolution chain (src/alwaysonline.py).

  The Python module is embedded shallowly: every network side effect
  (Elasticsearch, the Wayback Machine availability service and snapshot
  fetch, the origin server, the SERP search API, the chat-completion API,
  the client socket) is modelled as an oracle supplied in an environment
  record, where Except.error models a raised Python exception and
  Except.ok models a returned HTTP response.  The configured text codec
  and the sha256 hex digest are external-library collaborators and appear
  as fields of a Config record; byte strings are lists of naturals.
-/

namespace Caterpillar

/-- Python bytes. -/
abbrev Bytes := List Nat

/-- External collaborators of the module: the configured client text
encoding (str.encode / bytes.decode, the latter fallible), the sha256
hex digest from hashlib, and the LIBREY_URL configuration value. -/
structure Config where
  encode : String → Bytes
  decode : Bytes → Except String String
  sha256hex : String → String
  librey_url : String

/-- generate_id: hash the URL to a unique document id
(hashlib.sha256(url.encode).hexdigest()). -/
def generate_id (cfg : Config) (url : String) : String :=
  cfg.sha256hex url

/-- A document stored in the Elasticsearch index:
body = {url, content (decoded string), timestamp}. -/
structure EsDoc where
  url : String
  content : String
  timestamp : Nat
deriving DecidableEq

/-- The Elasticsearch index, newest document first; es.index upserts, and
lookup takes the first (newest) entry for an id. -/
abbrev EsStore := List (String × EsDoc)

/-- es.index(index, id, body): upsert, modelled by consing the new
document so that lookup sees the newest write. -/
def esIndexStore (st : EsStore) (id : String) (doc : EsDoc) : EsStore :=
  (id, doc) :: st

/-- Outcome of es.get: a found document, a NotFoundError, or some other
raised exception. -/
inductive EsGetOutcome where
  | found (doc : EsDoc)
  | notFound
  | raised (e : String)

/-- es.get against a healthy store (fault = none) answers from the store;
an injected fault models the backend raising a non-NotFound exception. -/
def esClientGet (fault : Option String) (st : EsStore) (id : String) : EsGetOutcome :=
  match fault with
  | some e => EsGetOutcome.raised e
  | none =>
    match st.lookup id with
    | some doc => EsGetOutcome.found doc
    | none => EsGetOutcome.notFound

/-- fetch_cache_from_elasticsearch: get the document for generate_id(url);
200 with the re-encoded content on a hit, 404 on NotFoundError, 502 on
any other exception. -/
def fetch_cache_from_elasticsearch (cfg : Config) (fault : Option String)
    (st : EsStore) (url : String) : Nat × Bytes :=
  let url_id := generate_id cfg url
  match esClientGet fault st url_id with
  | EsGetOutcome.found doc => (200, cfg.encode doc.content)
  | EsGetOutcome.notFound => (404, [])
  | EsGetOutcome.raised _ => (502, [])

/-- Outcome of the es.index call inside push_cache_to_elasticsearch:
either it succeeds or it raises. -/
inductive IndexOutcome where
  | ok
  | raised (e : String)

/-- push_cache_to_elasticsearch: index {url, content decoded under the
client encoding, timestamp} under generate_id(url); every exception
(decoding or indexing) is caught, logged and swallowed, leaving the
store unchanged. -/
def push_cache_to_elasticsearch (cfg : Config) (ix : IndexOutcome)
    (st : EsStore) (url : String) (data : Bytes) (timestamp : Nat) : EsStore :=
  let url_id := generate_id cfg url
  match cfg.decode data with
  | Except.error _ => st
  | Except.ok content =>
    match ix with
    | IndexOutcome.raised _ => st
    | IndexOutcome.ok => esIndexStore st url_id ⟨url, content, timestamp⟩

/-- The availability response of the Wayback Machine API: its HTTP status
and the result of parsing response.json() down to
archived_snapshots.closest.url — Except.error when json parsing raises,
none when the closest snapshot is absent or falsy, some u for the
closest snapshot url (possibly the empty default). -/
structure AvailResponse where
  status_code : Nat
  closest : Except String (Option String)

/-- The two external calls of the archive fetcher: the availability
lookup and the archived-page fetch; Except.error is a raised
requests exception. -/
structure WaybackEnv where
  avail : String → Except String AvailResponse
  snapshot : String → Except String (Nat × Bytes)

/-- The Wayback Machine API URL for a target url. -/
def wayback_api_url (url : String) : String :=
  ("http://archive.org/wayback/available?url=") ++ url

/-- fetch_cache_from_internet_archive: the availability lookup
(requests.get) sits OUTSIDE the try block, so an exception raised there
propagates; everything after the 200 check (json parsing, the snapshot
fetch) is inside the try and turns exceptions into 502.  A non-200
availability status passes through unchanged with an empty body; a
missing or empty snapshot url gives 404; a non-200 snapshot fetch keeps
the empty body. -/
def fetch_cache_from_internet_archive (env : WaybackEnv) (url : String) :
    Except String (Nat × Bytes) :=
  match env.avail (wayback_api_url url) with
  | Except.error e => Except.error e
  | Except.ok response =>
    if response.status_code = 200 then
      match response.closest with
      | Except.error _ => Except.ok (502, [])
      | Except.ok none => Except.ok (404, [])
      | Except.ok (some archived_url) =>
        if archived_url = ("") then Except.ok (404, [])
        else
          match env.snapshot archived_url with
          | Except.error _ => Except.ok (502, [])
          | Except.ok (sc, body) =>
            Except.ok (sc, if sc = 200 then body else [])
    else Except.ok (response.status_code, [])

/-- fetch_origin_server: requests.get(url) inside a try; a raised
exception becomes 502 with the exception text encoded as the body. -/
def fetch_origin_server (cfg : Config) (get : String → Except String (Nat × Bytes))
    (url : String) : Nat × Bytes :=
  match get url with
  | Except.ok (sc, body) => (sc, body)
  | Except.error e => (502, cfg.encode e)

/-- A word character in the sense of the regex class backslash-w over
ASCII input: alphanumeric or underscore. -/
def isWordChar (c : Char) : Bool :=
  c.isAlphanum || c = Char.ofNat 95

/-- A whitespace character in the sense of the regex class backslash-s
over ASCII input: space, tab, newline, vertical tab, form feed,
carriage return. -/
def isPySpace (c : Char) : Bool :=
  c = Char.ofNat 32 || c = Char.ofNat 9 || c = Char.ofNat 10 ||
  c = Char.ofNat 11 || c = Char.ofNat 12 || c = Char.ofNat 13

/-- Does cs start with pat? -/
def startsWithChars : List Char → List Char → Bool
  | [], _ => true
  | _ :: _, [] => false
  | p :: ps, c :: cs => p = c && startsWithChars ps cs

/-- Does s contain pat as a contiguous run? -/
def containsChars (pat : List Char) : List Char → Bool
  | [] => startsWithChars pat []
  | c :: cs => startsWithChars pat (c :: cs) || containsChars pat cs

/-- The second alternative of the substitution: every character that is
neither a word character nor whitespace is replaced by a space. -/
def subNonWord (cs : List Char) : List Char :=
  cs.map (fun c => if !(isWordChar c) && !(isPySpace c) then Char.ofNat 32 else c)

/-- The substitution re.sub applies to the url inside query_to_serp: a
leading http:// or https:// is replaced by one space (the first
alternative of the pattern, anchored at the start), and every remaining
character outside word characters and whitespace is replaced by a
space. -/
def serp_query (url : String) : String :=
  let cs := url.toList
  if startsWithChars (("https://").toList) cs then
    String.mk (Char.ofNat 32 :: subNonWord (cs.drop 8))
  else if startsWithChars (("http://").toList) cs then
    String.mk (Char.ofNat 32 :: subNonWord (cs.drop 7))
  else String.mk (subNonWord cs)

/-- query_to_serp: sanitize the url into a query, issue it to the SERP
API; a non-200 response is passed through with a descriptive body, a
raised exception becomes 502. -/
def query_to_serp (cfg : Config) (get : String → Except String (Nat × Bytes))
    (url : String) : Nat × Bytes :=
  let q := serp_query url
  let requrl := cfg.librey_url ++ ("/api.php?q=") ++ q
  match get requrl with
  | Except.error e => (502, cfg.encode (("Error querying SERP API: ") ++ e))
  | Except.ok (sc, body) =>
    if sc ≠ 200 then
      (sc, cfg.encode (("SERP API server returned status code ") ++ toString sc))
    else (200, body)

/-- The chat-completion response: its HTTP status and the result of
parsing choices[0].message.content out of the JSON body (Except.error
when that parsing raises). -/
structure LlmResponse where
  status_code : Nat
  choice : Except String String

/-- The instruction template the scraped search results are embedded
into. -/
def llm_prompt (content_str : String) : String :=
  ("The following content was scraped from a search engine. Based on this data, ")
  ++ ("please infer the most likely information the user was originally searching for ")
  ++ ("and explain it as accurately as possible:")
  ++ ("\n\n") ++ content_str

/-- query_to_llm: decode the content, post the prompt to the
chat-completion API, return 200 with the encoded completion text on
success, pass a non-200 status through with a descriptive body, and
turn any raised exception (decoding, the request, json parsing) into
502. -/
def query_to_llm (cfg : Config) (post : String → Except String LlmResponse)
    (content : Bytes) : Nat × Bytes :=
  match cfg.decode content with
  | Except.error e => (502, cfg.encode (("Error querying ChatGPT API: ") ++ e))
  | Except.ok content_str =>
    match post (llm_prompt content_str) with
    | Except.error e => (502, cfg.encode (("Error querying ChatGPT API: ") ++ e))
    | Except.ok resp =>
      if resp.status_code = 200 then
        match resp.choice with
        | Except.error e => (502, cfg.encode (("Error querying ChatGPT API: ") ++ e))
        | Except.ok llm_content => (200, cfg.encode llm_content)
      else
        (resp.status_code,
         cfg.encode (("ChatGPT API returned status code ") ++ toString resp.status_code))

/-- The observable calls connect makes, in order: the four source
attempts, the summarization call, the cache back-fill call (with the
exact bytes handed to push_cache_to_elasticsearch), and the non-GET
byte relay. -/
inductive Event where
  | esGetCall (url : String)
  | waybackCall (url : String)
  | originCall (url : String)
  | serpCall (url : String)
  | llmCall
  | cachePutCall (url : String) (data : Bytes)
  | relayCall
deriving DecidableEq

/-- The full oracle environment of one connect call. -/
structure ChainEnv where
  esFault : Option String
  esStore : EsStore
  indexOutcome : IndexOutcome
  timestamp : Nat
  wayback : WaybackEnv
  originGet : String → Except String (Nat × Bytes)
  serpGet : String → Except String (Nat × Bytes)
  llmPost : String → Except String LlmResponse
  connSend : Except String Unit
  relay : Except String Unit

/-- What one connect call produced: the returned connected flag, the
bytes written to the client connection, the resulting Elasticsearch
store, and the trace of calls made. -/
structure ConnectResult where
  connected : Bool
  sent : Bytes
  store : EsStore
  events : List Event
deriving DecidableEq

/-- conn.send(buffered) at the end of the GET branch: a raised socket
exception propagates out of connect. -/
def finishSend (r : ConnectResult) (send : Except String Unit) :
    Except String ConnectResult :=
  match send with
  | Except.error e => Except.error e
  | Except.ok _ => Except.ok r

/-- The absolute target url: when the url carries no scheme delimiter it
is synthesized from scheme, webserver and port (the source interpolates
the raw port value into an f-string), otherwise the url is used
verbatim. -/
def target_url (scheme webserver port url : String) : String :=
  if containsChars (("://").toList) url.toList then url
  else scheme ++ ("://") ++ webserver ++ (":") ++ port ++ url

/-- AlwaysOnline.connect: for a GET request, try Elasticsearch, the
Wayback Machine, the origin server (backfilling the cache on success)
and finally the SERP API with summarization, stopping at the first 200
and sending the accumulated buffer to the client; for any other method,
relay bytes to the origin and leave connected false.  Line 241 of the
source re-tests status_code — the SERP status, already known to be
200 — instead of llm_status_code, so the summarizer branch always
appends llm_content. -/
def AlwaysOnline.connect (cfg : Config) (env : ChainEnv)
    (webserver port scheme method url : String) : Except String ConnectResult :=
  let t := target_url scheme webserver port url
  if method = ("GET") then
    let r1 := fetch_cache_from_elasticsearch cfg env.esFault env.esStore t
    if r1.1 = 200 then
      finishSend ⟨true, r1.2, env.esStore, [Event.esGetCall t]⟩ env.connSend
    else
      match fetch_cache_from_internet_archive env.wayback t with
      | Except.error e => Except.error e
      | Except.ok r2 =>
        if r2.1 = 200 then
          finishSend ⟨true, r2.2, env.esStore,
            [Event.esGetCall t, Event.waybackCall t]⟩ env.connSend
        else
          let r3 := fetch_origin_server cfg env.originGet t
          if r3.1 = 200 then
            let buffered := r3.2
            let st := push_cache_to_elasticsearch cfg env.indexOutcome env.esStore
              t buffered env.timestamp
            finishSend ⟨true, buffered, st,
              [Event.esGetCall t, Event.waybackCall t, Event.originCall t,
               Event.cachePutCall t buffered]⟩ env.connSend
          else
            let r4 := query_to_serp cfg env.serpGet t
            if r4.1 = 200 then
              let rl := query_to_llm cfg env.llmPost r4.2
              -- source line 241: `if status_code == 200` re-tests the SERP
              -- status instead of llm_status_code
              let buffered := if r4.1 = 200 then rl.2 else r4.2
              finishSend ⟨true, buffered, env.esStore,
                [Event.esGetCall t, Event.waybackCall t, Event.originCall t,
                 Event.serpCall t, Event.llmCall]⟩ env.connSend
            else
              finishSend ⟨false, [], env.esStore,
                [Event.esGetCall t, Event.waybackCall t, Event.originCall t,
                 Event.serpCall t]⟩ env.connSend
  else
    match env.relay with
    | Except.error e => Except.error e
    | Except.ok _ => Except.ok ⟨false, [], env.esStore, [Event.relayCall]⟩

end Caterpillar

namespace Caterpillar

def strB (s : String) : Bytes := s.toList.map Char.toNat

def demoCfg : Config where
  encode := strB
  decode := fun l => Except.ok (String.mk (l.map (fun n => Char.ofNat n)))
  sha256hex := fun s => s
  librey_url := "https://serp.catswords.net"

/-- A chain environment in which cache, archive and origin fail, the SERP
API answers 200 with raw search results, and the summarizer answers
502. -/
def envC1 : ChainEnv where
  esFault := none
  esStore := []
  indexOutcome := IndexOutcome.ok
  timestamp := 0
  wayback :=
    { avail := fun _ => Except.ok { status_code := 404, closest := Except.ok none }
      snapshot := fun _ => Except.ok (404, []) }
  originGet := fun _ => Except.ok (500, [])
  serpGet := fun _ => Except.ok (200, strB ("RAW SEARCH RESULTS"))
  llmPost := fun _ => Except.ok { status_code := 502, choice := Except.ok ("unused") }
  connSend := Except.ok ()
  relay := Except.ok ()

/-- As envC1, but the summarizer answers 200 with a summary. -/
def envC1good : ChainEnv :=
  { envC1 with
    llmPost := fun _ => Except.ok { status_code := 200, choice := Except.ok ("SUMMARY") } }

/-- A wayback environment whose availability lookup raises. -/
def envC2 : WaybackEnv where
  avail := fun _ => Except.error ("connection refused")
  snapshot := fun _ => Except.ok (200, [])

/-- A wayback environment whose availability lookup returns 200 but whose
body fails to parse as json. -/
def envC2ok : WaybackEnv where
  avail := fun _ => Except.ok { status_code := 200, closest := Except.error ("invalid json") }
  snapshot := fun _ => Except.error ("boom")

/-- Cache and archive fail, the origin answers 200 with a body. -/
def envC3 : ChainEnv :=
  { envC1 with originGet := fun _ => Except.ok (200, strB ("ORIGIN BODY")) }

/-- The cache holds a document for https://example.com/a (demoCfg hashes
a url to itself). -/
def envC4 : ChainEnv :=
  { envC1 with
    esStore := [(("https://example.com/a"),
      { url := ("https://example.com/a"), content := ("CACHED"), timestamp := 3 })] }

/-- All four sources fail. -/
def envC5 : ChainEnv :=
  { envC1 with serpGet := fun _ => Except.ok (500, strB ("no results")) }

/-- As envC3, but the es.index call of the back-fill raises. -/
def envC8 : ChainEnv :=
  { envC3 with indexOutcome := IndexOutcome.raised ("es down") }

/-- A wayback environment whose availability lookup returns 403. -/
def envC10 : WaybackEnv where
  avail := fun _ => Except.ok { status_code := 403, closest := Except.ok none }
  snapshot := fun _ => Except.ok (200, [])

/-- Events that are a cache back-fill call. -/
def cachePuts (evs : List Event) : List Event :=
  evs.filter (fun e =>
    match e with
    | Event.cachePutCall _ _ => true
    | _ => false)

/-- Events that are one of the four source attempts. -/
def sourceCalls (evs : List Event) : List Event :=
  evs.filter (fun e =>
    match e with
    | Event.esGetCall _ => true
    | Event.waybackCall _ => true
    | Event.originCall _ => true
    | Event.serpCall _ => true
    | _ => false)

/-- The canonical attempt order of the resolution chain for a target. -/
def chainOrder (t : String) : List Event :=
  [Event.esGetCall t, Event.waybackCall t, Event.originCall t, Event.serpCall t]

theorem finishSend_ok {a r : ConnectResult} {s : Except String Unit}
    (h : finishSend a s = Except.ok r) : r = a := by
  cases s with
  | error e => simp [finishSend] at h
  | ok u => simp [finishSend] at h; exact h.symm

theorem connect_eq_cache_hit (cfg : Config) (env : ChainEnv)
    (webserver port scheme url : String) (s1 : Nat) (c1 : Bytes)
    (h1 : fetch_cache_from_elasticsearch cfg env.esFault env.esStore
      (target_url scheme webserver port url) = (s1, c1)) (hs1 : s1 = 200) :
    AlwaysOnline.connect cfg env webserver port scheme ("GET") url =
      finishSend ⟨true, c1, env.esStore,
        [Event.esGetCall (target_url scheme webserver port url)]⟩ env.connSend := by
  unfold AlwaysOnline.connect
  simp [h1, hs1]

theorem connect_eq_wayback_raise (cfg : Config) (env : ChainEnv)
    (webserver port scheme url : String) (s1 : Nat) (c1 : Bytes) (e : String)
    (h1 : fetch_cache_from_elasticsearch cfg env.esFault env.esStore
      (target_url scheme webserver port url) = (s1, c1)) (hs1 : s1 ≠ 200)
    (hw : fetch_cache_from_internet_archive env.wayback
      (target_url scheme webserver port url) = Except.error e) :
    AlwaysOnline.connect cfg env webserver port scheme ("GET") url = Except.error e := by
  unfold AlwaysOnline.connect
  simp [h1, hs1, hw]

theorem connect_eq_archive_hit (cfg : Config) (env : ChainEnv)
    (webserver port scheme url : String) (s1 s2 : Nat) (c1 c2 : Bytes)
    (h1 : fetch_cache_from_elasticsearch cfg env.esFault env.esStore
      (target_url scheme webserver port url) = (s1, c1)) (hs1 : s1 ≠ 200)
    (hw : fetch_cache_from_internet_archive env.wayback
      (target_url scheme webserver port url) = Except.ok (s2, c2)) (hs2 : s2 = 200) :
    AlwaysOnline.connect cfg env webserver port scheme ("GET") url =
      finishSend ⟨true, c2, env.esStore,
        [Event.esGetCall (target_url scheme webserver port url),
         Event.waybackCall (target_url scheme webserver port url)]⟩ env.connSend := by
  unfold AlwaysOnline.connect
  simp [h1, hs1, hw, hs2]

theorem connect_eq_origin_hit (cfg : Config) (env : ChainEnv)
    (webserver port scheme url : String) (s1 s2 : Nat) (c1 c2 B : Bytes)
    (h1 : fetch_cache_from_elasticsearch cfg env.esFault env.esStore
      (target_url scheme webserver port url) = (s1, c1)) (hs1 : s1 ≠ 200)
    (hw : fetch_cache_from_internet_archive env.wayback
      (target_url scheme webserver port url) = Except.ok (s2, c2)) (hs2 : s2 ≠ 200)
    (ho : fetch_origin_server cfg env.originGet
      (target_url scheme webserver port url) = (200, B)) :
    AlwaysOnline.connect cfg env webserver port scheme ("GET") url =
      finishSend ⟨true, B,
        push_cache_to_elasticsearch cfg env.indexOutcome env.esStore
          (target_url scheme webserver port url) B env.timestamp,
        [Event.esGetCall (target_url scheme webserver port url),
         Event.waybackCall (target_url scheme webserver port url),
         Event.originCall (target_url scheme webserver port url),
         Event.cachePutCall (target_url scheme webserver port url) B]⟩ env.connSend := by
  unfold AlwaysOnline.connect
  simp [h1, hs1, hw, hs2, ho]

theorem connect_eq_search_hit (cfg : Config) (env : ChainEnv)
    (webserver port scheme url : String) (s1 s2 s3 s4 : Nat) (c1 c2 c3 c4 : Bytes)
    (h1 : fetch_cache_from_elasticsearch cfg env.esFault env.esStore
      (target_url scheme webserver port url) = (s1, c1)) (hs1 : s1 ≠ 200)
    (hw : fetch_cache_from_internet_archive env.wayback
      (target_url scheme webserver port url) = Except.ok (s2, c2)) (hs2 : s2 ≠ 200)
    (ho : fetch_origin_server cfg env.originGet
      (target_url scheme webserver port url) = (s3, c3)) (hs3 : s3 ≠ 200)
    (hq : query_to_serp cfg env.serpGet
      (target_url scheme webserver port url) = (s4, c4)) (hs4 : s4 = 200) :
    AlwaysOnline.connect cfg env webserver port scheme ("GET") url =
      finishSend ⟨true, (query_to_llm cfg env.llmPost c4).2, env.esStore,
        [Event.esGetCall (target_url scheme webserver port url),
         Event.waybackCall (target_url scheme webserver port url),
         Event.originCall (target_url scheme webserver port url),
         Event.serpCall (target_url scheme webserver port url),
         Event.llmCall]⟩ env.connSend := by
  unfold AlwaysOnline.connect
  simp [h1, hs1, hw, hs2, ho, hs3, hq, hs4]

theorem connect_eq_exhausted (cfg : Config) (env : ChainEnv)
    (webserver port scheme url : String) (s1 s2 s3 s4 : Nat) (c1 c2 c3 c4 : Bytes)
    (h1 : fetch_cache_from_elasticsearch cfg env.esFault env.esStore
      (target_url scheme webserver port url) = (s1, c1)) (hs1 : s1 ≠ 200)
    (hw : fetch_cache_from_internet_archive env.wayback
      (target_url scheme webserver port url) = Except.ok (s2, c2)) (hs2 : s2 ≠ 200)
    (ho : fetch_origin_server cfg env.originGet
      (target_url scheme webserver port url) = (s3, c3)) (hs3 : s3 ≠ 200)
    (hq : query_to_serp cfg env.serpGet
      (target_url scheme webserver port url) = (s4, c4)) (hs4 : s4 ≠ 200) :
    AlwaysOnline.connect cfg env webserver port scheme ("GET") url =
      finishSend ⟨false, [], env.esStore,
        [Event.esGetCall (target_url scheme webserver port url),
         Event.waybackCall (target_url scheme webserver port url),
         Event.originCall (target_url scheme webserver port url),
         Event.serpCall (target_url scheme webserver port url)]⟩ env.connSend := by
  unfold AlwaysOnline.connect
  simp [h1, hs1, hw, hs2, ho, hs3, hq, hs4]

theorem connect_eq_relay (cfg : Config) (env : ChainEnv)
    (webserver port scheme method url : String) (hm : method ≠ ("GET")) :
    AlwaysOnline.connect cfg env webserver port scheme method url =
      (match env.relay with
       | Except.error e => Except.error e
       | Except.ok _ => Except.ok ⟨false, [], env.esStore, [Event.relayCall]⟩) := by
  unfold AlwaysOnline.connect
  simp [hm]

theorem connect_GET_run (cfg : Config) (env : ChainEnv)
    (webserver port scheme url : String) (r : ConnectResult)
    (hr : AlwaysOnline.connect cfg env webserver port scheme ("GET") url = Except.ok r) :
    ∃ t, t = target_url scheme webserver port url ∧
    ∃ s1 c1, fetch_cache_from_elasticsearch cfg env.esFault env.esStore t = (s1, c1) ∧
      ((s1 = 200 ∧ r = ⟨true, c1, env.esStore, [Event.esGetCall t]⟩) ∨
       (s1 ≠ 200 ∧ ∃ s2 c2,
         fetch_cache_from_internet_archive env.wayback t = Except.ok (s2, c2) ∧
         ((s2 = 200 ∧ r = ⟨true, c2, env.esStore,
             [Event.esGetCall t, Event.waybackCall t]⟩) ∨
          (s2 ≠ 200 ∧ ∃ s3 c3, fetch_origin_server cfg env.originGet t = (s3, c3) ∧
            ((s3 = 200 ∧ r = ⟨true, c3,
                push_cache_to_elasticsearch cfg env.indexOutcome env.esStore t c3 env.timestamp,
                [Event.esGetCall t, Event.waybackCall t, Event.originCall t,
                 Event.cachePutCall t c3]⟩) ∨
             (s3 ≠ 200 ∧ ∃ s4 c4, query_to_serp cfg env.serpGet t = (s4, c4) ∧
               ((s4 = 200 ∧ r = ⟨true, (query_to_llm cfg env.llmPost c4).2, env.esStore,
                   [Event.esGetCall t, Event.waybackCall t, Event.originCall t,
                    Event.serpCall t, Event.llmCall]⟩) ∨
                (s4 ≠ 200 ∧ r = ⟨false, [], env.esStore,
                   [Event.esGetCall t, Event.waybackCall t, Event.originCall t,
                    Event.serpCall t]⟩)))))))) := by
  refine ⟨target_url scheme webserver port url, rfl, ?_⟩
  obtain ⟨s1, c1, h1⟩ :
      ∃ s1 c1, fetch_cache_from_elasticsearch cfg env.esFault env.esStore
        (target_url scheme webserver port url) = (s1, c1) := ⟨_, _, rfl⟩
  refine ⟨s1, c1, h1, ?_⟩
  by_cases hs1 : s1 = 200
  · left
    rw [connect_eq_cache_hit cfg env webserver port scheme url s1 c1 h1 hs1] at hr
    exact ⟨hs1, finishSend_ok hr⟩
  · right
    refine ⟨hs1, ?_⟩
    cases hw : fetch_cache_from_internet_archive env.wayback
        (target_url scheme webserver port url) with
    | error e =>
      rw [connect_eq_wayback_raise cfg env webserver port scheme url s1 c1 e h1 hs1 hw] at hr
      simp at hr
    | ok p =>
      obtain ⟨s2, c2⟩ := p
      refine ⟨s2, c2, rfl, ?_⟩
      by_cases hs2 : s2 = 200
      · left
        rw [connect_eq_archive_hit cfg env webserver port scheme url s1 s2 c1 c2
          h1 hs1 hw hs2] at hr
        exact ⟨hs2, finishSend_ok hr⟩
      · right
        refine ⟨hs2, ?_⟩
        obtain ⟨s3, c3, h3⟩ :
            ∃ s3 c3, fetch_origin_server cfg env.originGet
              (target_url scheme webserver port url) = (s3, c3) := ⟨_, _, rfl⟩
        refine ⟨s3, c3, h3, ?_⟩
        by_cases hs3 : s3 = 200
        · left
          rw [hs3] at h3
          rw [connect_eq_origin_hit cfg env webserver port scheme url s1 s2 c1 c2 c3
            h1 hs1 hw hs2 h3] at hr
          exact ⟨hs3, finishSend_ok hr⟩
        · right
          refine ⟨hs3, ?_⟩
          obtain ⟨s4, c4, h4⟩ :
              ∃ s4 c4, query_to_serp cfg env.serpGet
                (target_url scheme webserver port url) = (s4, c4) := ⟨_, _, rfl⟩
          refine ⟨s4, c4, h4, ?_⟩
          by_cases hs4 : s4 = 200
          · left
            rw [connect_eq_search_hit cfg env webserver port scheme url s1 s2 s3 s4
              c1 c2 c3 c4 h1 hs1 hw hs2 h3 hs3 h4 hs4] at hr
            exact ⟨hs4, finishSend_ok hr⟩
          · right
            rw [connect_eq_exhausted cfg env webserver port scheme url s1 s2 s3 s4
              c1 c2 c3 c4 h1 hs1 hw hs2 h3 hs3 h4 hs4] at hr
            exact ⟨hs4, finishSend_ok hr⟩

/-- C1: with cache, archive and origin failing and the search query
answering 200 with body S, the chain does NOT return S when the
summarizer fails: line 241 of the source re-tests status_code (the SERP
status, already known to be 200) instead of llm_status_code, so the
body sent is the error body produced by query_to_llm.  When the
summarizer answers 200 with body T, the chain returns T as the spec
states. -/
theorem search_summary_failure_returns_llm_body :
    AlwaysOnline.connect demoCfg envC1 ("example.com") ("80") ("https") ("GET")
      ("https://example.com/a")
      = Except.ok ⟨true, strB ("ChatGPT API returned status code 502"), [],
          [Event.esGetCall ("https://example.com/a"),
           Event.waybackCall ("https://example.com/a"),
           Event.originCall ("https://example.com/a"),
           Event.serpCall ("https://example.com/a"), Event.llmCall]⟩ ∧
    query_to_serp demoCfg envC1.serpGet ("https://example.com/a")
      = (200, strB ("RAW SEARCH RESULTS")) ∧
    query_to_llm demoCfg envC1.llmPost (strB ("RAW SEARCH RESULTS"))
      = (502, strB ("ChatGPT API returned status code 502")) ∧
    strB ("ChatGPT API returned status code 502") ≠ strB ("RAW SEARCH RESULTS") ∧
    AlwaysOnline.connect demoCfg envC1good ("example.com") ("80") ("https") ("GET")
      ("https://example.com/a")
      = Except.ok ⟨true, strB ("SUMMARY"), [],
          [Event.esGetCall ("https://example.com/a"),
           Event.waybackCall ("https://example.com/a"),
           Event.originCall ("https://example.com/a"),
           Event.serpCall ("https://example.com/a"), Event.llmCall]⟩ :=
  ⟨rfl, rfl, rfl, by decide, rfl⟩

/-- C7 counterexample: for the url https://example.com/a_b the derived
search query keeps the underscore — a character that is neither
alphanumeric nor whitespace — because the regex word class also covers
underscores, so the sanitizer does not replace every non-alphanumeric
non-space character. -/
theorem serp_query_keeps_underscore :
    (serp_query ("https://example.com/a_b")).toList.contains (Char.ofNat 95) = true ∧
    (Char.ofNat 95).isAlphanum = false ∧
    (Char.ofNat 95).isWhitespace = false ∧
    isPySpace (Char.ofNat 95) = false := by decide

theorem mem_subNonWord {c : Char} {cs : List Char}
    (h : c ∈ subNonWord cs) : isWordChar c = true ∨ isPySpace c = true := by
  unfold subNonWord at h
  rcases List.mem_map.mp h with ⟨d, hd, hde⟩
  by_cases hcond : (!(isWordChar d) && !(isPySpace d)) = true
  · rw [if_pos hcond] at hde
    subst hde
    right; decide
  · rw [if_neg hcond] at hde
    subst hde
    by_cases hw2 : isWordChar d = true
    · exact Or.inl hw2
    · by_cases hp2 : isPySpace d = true
      · exact Or.inr hp2
      · exfalso
        apply hcond
        simp at hw2 hp2
        rw [hw2, hp2]
        rfl

/-- C7 (amended): the sanitizer replaces a leading http:// or https://
scheme and every character that is neither a word character
(alphanumeric or underscore) nor whitespace by a space; hence the query
holds only word characters and whitespace — in particular no scheme
delimiter — and for the example url, which has no underscore, only
alphanumerics and whitespace. -/
theorem serp_query_sanitizes (url : String) (c : Char)
    (hc : c ∈ (serp_query url).toList) :
    (isWordChar c = true ∨ isPySpace c = true) ∧
    (∀ d ∈ (serp_query ("https://example.com/foo-bar?x=1")).toList,
      d.isAlphanum = true ∨ isPySpace d = true) := by
  constructor
  · have h0 : ∀ l : List Char, c ∈ Char.ofNat 32 :: subNonWord l →
        isWordChar c = true ∨ isPySpace c = true := by
      intro l hl
      rcases List.mem_cons.mp hl with h | h
      · subst h; right; decide
      · exact mem_subNonWord h
    unfold serp_query at hc
    dsimp only at hc
    split at hc
    · exact h0 _ hc
    · split at hc
      · exact h0 _ hc
      · exact mem_subNonWord hc
  · decide

/-- Witness for the amended C7 at a concrete url and character. -/
theorem serp_query_sanitizes_witness :
    (Char.ofNat 97) ∈ (serp_query ("abc")).toList ∧
    ((isWordChar (Char.ofNat 97) = true ∨ isPySpace (Char.ofNat 97) = true) ∧
     (∀ d ∈ (serp_query ("https://example.com/foo-bar?x=1")).toList,
       d.isAlphanum = true ∨ isPySpace d = true)) :=
  ⟨by decide, serp_query_sanitizes ("abc") (Char.ofNat 97) (by decide)⟩

/-- C6: a cache put of (url, content) followed immediately by a cache get
for the same url against a healthy store returns status 200 and the
original content bytes, provided the configured encoding round-trips
that content. -/
theorem cache_put_get_roundtrip (cfg : Config) (st : EsStore) (url : String)
    (content : Bytes) (ts : Nat) (s : String)
    (hdec : cfg.decode content = Except.ok s) (henc : cfg.encode s = content) :
    fetch_cache_from_elasticsearch cfg none
      (push_cache_to_elasticsearch cfg IndexOutcome.ok st url content ts) url
      = (200, content) := by
  unfold push_cache_to_elasticsearch
  rw [hdec]
  unfold fetch_cache_from_elasticsearch esClientGet esIndexStore
  simp [List.lookup, henc]

/-- Witness for C6 at a concrete configuration, url and content. -/
theorem cache_put_get_roundtrip_witness :
    demoCfg.decode (strB ("hi")) = Except.ok ("hi") ∧
    demoCfg.encode ("hi") = strB ("hi") ∧
    fetch_cache_from_elasticsearch demoCfg none
      (push_cache_to_elasticsearch demoCfg IndexOutcome.ok []
        ("https://example.com/a") (strB ("hi")) 7)
      ("https://example.com/a") = (200, strB ("hi")) :=
  ⟨rfl, rfl,
   cache_put_get_roundtrip demoCfg [] ("https://example.com/a") (strB ("hi")) 7
     ("hi") rfl rfl⟩

/-- C10: when the availability lookup answers with a non-200 status s,
the archive fetcher returns exactly (s, empty body): the status passes
through unchanged. -/
theorem archive_avail_status_passthrough (env : WaybackEnv) (url : String)
    (resp : AvailResponse) (ha : env.avail (wayback_api_url url) = Except.ok resp)
    (hs : resp.status_code ≠ 200) :
    fetch_cache_from_internet_archive env url = Except.ok (resp.status_code, []) := by
  unfold fetch_cache_from_internet_archive
  rw [ha]
  simp [hs]

/-- Witness for C10 with an availability lookup answering 403. -/
theorem archive_avail_status_passthrough_witness :
    envC10.avail (wayback_api_url ("https://example.com/a"))
      = Except.ok { status_code := 403, closest := Except.ok none } ∧
    fetch_cache_from_internet_archive envC10 ("https://example.com/a")
      = Except.ok (403, []) :=
  ⟨rfl,
   archive_avail_status_passthrough envC10 ("https://example.com/a")
     { status_code := 403, closest := Except.ok none } rfl (by decide)⟩

/-- C2 counterexample: an exception raised by the availability lookup of
the archive fetcher propagates to the orchestrator instead of being
converted into a 502 status. -/
theorem archive_fetch_raises_on_avail_exception :
    fetch_cache_from_internet_archive envC2 ("https://example.com/a")
      = Except.error ("connection refused") := rfl

/-- C2 (amended): once the availability lookup has returned a response,
the archive fetcher never raises; an exception during json parsing or
during the snapshot fetch is converted into a returned 502.  (An
exception during the availability lookup itself, which sits outside the
try block, propagates.) -/
theorem archive_fetch_failure_boundary (env : WaybackEnv) (url : String)
    (resp : AvailResponse) (ha : env.avail (wayback_api_url url) = Except.ok resp) :
    (∃ p, fetch_cache_from_internet_archive env url = Except.ok p) ∧
    (∀ e, resp.closest = Except.error e → resp.status_code = 200 →
      fetch_cache_from_internet_archive env url = Except.ok (502, [])) ∧
    (∀ u e, resp.closest = Except.ok (some u) → u ≠ ("") → resp.status_code = 200 →
      env.snapshot u = Except.error e →
      fetch_cache_from_internet_archive env url = Except.ok (502, [])) := by
  refine ⟨?_, ?_, ?_⟩
  · unfold fetch_cache_from_internet_archive
    rw [ha]
    repeat' split
    all_goals first | exact ⟨_, rfl⟩ | simp_all
  · intro e hc h200
    unfold fetch_cache_from_internet_archive
    rw [ha]
    simp [h200, hc]
  · intro u e hc hu h200 hsnap
    unfold fetch_cache_from_internet_archive
    rw [ha]
    simp [h200, hc, hu, hsnap]

/-- Witness for the amended C2: a 200 availability response whose body
fails json parsing yields a returned 502, not an exception. -/
theorem archive_fetch_failure_boundary_witness :
    (∃ p, fetch_cache_from_internet_archive envC2ok ("https://example.com/a")
      = Except.ok p) ∧
    fetch_cache_from_internet_archive envC2ok ("https://example.com/a")
      = Except.ok (502, []) :=
  ⟨(archive_fetch_failure_boundary envC2ok ("https://example.com/a")
      { status_code := 200, closest := Except.error ("invalid json") } rfl).1,
   (archive_fetch_failure_boundary envC2ok ("https://example.com/a")
      { status_code := 200, closest := Except.error ("invalid json") } rfl).2.1
     ("invalid json") rfl rfl⟩

/-- C4: when the Elasticsearch cache answers 200, connect returns right
after the cache attempt — its trace is exactly the one cache call, so
neither the archive, the origin nor the search fallback is invoked —
and in every GET run the source attempts are an initial segment of the
fixed order cache, archive, origin, search. -/
theorem cache_hit_short_circuit (cfg : Config) (env : ChainEnv)
    (webserver port scheme url : String) (c1 : Bytes)
    (hsend : env.connSend = Except.ok ())
    (h1 : fetch_cache_from_elasticsearch cfg env.esFault env.esStore
      (target_url scheme webserver port url) = (200, c1)) :
    (AlwaysOnline.connect cfg env webserver port scheme ("GET") url =
      Except.ok ⟨true, c1, env.esStore,
        [Event.esGetCall (target_url scheme webserver port url)]⟩) ∧
    (∀ (env2 : ChainEnv) (w2 p2 sch2 u2 : String) (r2 : ConnectResult),
      AlwaysOnline.connect cfg env2 w2 p2 sch2 ("GET") u2 = Except.ok r2 →
      ∃ k, sourceCalls r2.events = (chainOrder (target_url sch2 w2 p2 u2)).take k) := by
  constructor
  · rw [connect_eq_cache_hit cfg env webserver port scheme url 200 c1 h1 rfl, hsend]
    rfl
  · intro env2 w2 p2 sch2 u2 r2 hr2
    obtain ⟨t2, ht2, s1, c1, h1, hcase⟩ := connect_GET_run cfg env2 w2 p2 sch2 u2 r2 hr2
    subst ht2
    rcases hcase with ⟨_, hrq⟩ | ⟨_, s2, c2, hw, hcase⟩
    · exact ⟨1, by subst hrq; rfl⟩
    · rcases hcase with ⟨_, hrq⟩ | ⟨_, s3, c3, h3, hcase⟩
      · exact ⟨2, by subst hrq; rfl⟩
      · rcases hcase with ⟨_, hrq⟩ | ⟨_, s4, c4, h4, hcase⟩
        · exact ⟨3, by subst hrq; rfl⟩
        · rcases hcase with ⟨_, hrq⟩ | ⟨_, hrq⟩
          · exact ⟨4, by subst hrq; rfl⟩
          · exact ⟨4, by subst hrq; rfl⟩

/-- Witness for C4: a populated cache short-circuits the chain. -/
theorem cache_hit_short_circuit_witness :
    (AlwaysOnline.connect demoCfg envC4 ("example.com") ("80") ("https") ("GET")
      ("https://example.com/a") =
      Except.ok ⟨true, strB ("CACHED"), envC4.esStore,
        [Event.esGetCall (target_url ("https") ("example.com") ("80")
          ("https://example.com/a"))]⟩) ∧
    (∀ (env2 : ChainEnv) (w2 p2 sch2 u2 : String) (r2 : ConnectResult),
      AlwaysOnline.connect demoCfg env2 w2 p2 sch2 ("GET") u2 = Except.ok r2 →
      ∃ k, sourceCalls r2.events = (chainOrder (target_url sch2 w2 p2 u2)).take k) :=
  cache_hit_short_circuit demoCfg envC4 ("example.com") ("80") ("https")
    ("https://example.com/a") (strB ("CACHED")) rfl rfl

/-- C3: on a cache miss and archive miss followed by an origin 200 with
body B, connect resolves with body B and performs exactly one cache put,
of (target url, B); and in every run of connect, a cache put happens
only in the branch where cache and archive failed and the origin
answered 200, and then carries the origin body. -/
theorem origin_success_backfills_once (cfg : Config) (env : ChainEnv)
    (webserver port scheme url : String) (s1 s2 : Nat) (c1 c2 B : Bytes)
    (hsend : env.connSend = Except.ok ())
    (h1 : fetch_cache_from_elasticsearch cfg env.esFault env.esStore
      (target_url scheme webserver port url) = (s1, c1)) (hs1 : s1 ≠ 200)
    (hw : fetch_cache_from_internet_archive env.wayback
      (target_url scheme webserver port url) = Except.ok (s2, c2)) (hs2 : s2 ≠ 200)
    (ho : fetch_origin_server cfg env.originGet
      (target_url scheme webserver port url) = (200, B)) :
    (∃ ev, AlwaysOnline.connect cfg env webserver port scheme ("GET") url =
        Except.ok ⟨true, B,
          push_cache_to_elasticsearch cfg env.indexOutcome env.esStore
            (target_url scheme webserver port url) B env.timestamp, ev⟩ ∧
      cachePuts ev = [Event.cachePutCall (target_url scheme webserver port url) B]) ∧
    (∀ (env2 : ChainEnv) (w2 p2 sch2 m2 u2 : String) (r2 : ConnectResult),
      AlwaysOnline.connect cfg env2 w2 p2 sch2 m2 u2 = Except.ok r2 →
      cachePuts r2.events = [] ∨
      ∃ B2, fetch_origin_server cfg env2.originGet (target_url sch2 w2 p2 u2) = (200, B2) ∧
        (fetch_cache_from_elasticsearch cfg env2.esFault env2.esStore
          (target_url sch2 w2 p2 u2)).1 ≠ 200 ∧
        (∃ q, fetch_cache_from_internet_archive env2.wayback (target_url sch2 w2 p2 u2)
            = Except.ok q ∧ q.1 ≠ 200) ∧
        cachePuts r2.events = [Event.cachePutCall (target_url sch2 w2 p2 u2) B2]) := by
  constructor
  · refine ⟨[Event.esGetCall (target_url scheme webserver port url),
      Event.waybackCall (target_url scheme webserver port url),
      Event.originCall (target_url scheme webserver port url),
      Event.cachePutCall (target_url scheme webserver port url) B], ?_, ?_⟩
    · rw [connect_eq_origin_hit cfg env webserver port scheme url s1 s2 c1 c2 B
        h1 hs1 hw hs2 ho, hsend]
      rfl
    · rfl
  · intro env2 w2 p2 sch2 m2 u2 r2 hr2
    by_cases hm2 : m2 = ("GET")
    · subst hm2
      obtain ⟨t2, ht2, s1b, c1b, h1b, hcase⟩ :=
        connect_GET_run cfg env2 w2 p2 sch2 u2 r2 hr2
      subst ht2
      rcases hcase with ⟨_, hrq⟩ | ⟨hs1b, s2b, c2b, hwb, hcase⟩
      · exact Or.inl (by subst hrq; rfl)
      · rcases hcase with ⟨_, hrq⟩ | ⟨hs2b, s3b, c3b, h3b, hcase⟩
        · exact Or.inl (by subst hrq; rfl)
        · rcases hcase with ⟨hs3b, hrq⟩ | ⟨hs3b, s4b, c4b, h4b, hcase⟩
          · refine Or.inr ⟨c3b, ?_, ?_, ⟨(s2b, c2b), hwb, hs2b⟩, ?_⟩
            · rw [h3b, hs3b]
            · rw [h1b]; exact hs1b
            · subst hrq; rfl
          · rcases hcase with ⟨_, hrq⟩ | ⟨_, hrq⟩
            · exact Or.inl (by subst hrq; rfl)
            · exact Or.inl (by subst hrq; rfl)
    · rw [connect_eq_relay cfg env2 w2 p2 sch2 m2 u2 hm2] at hr2
      cases hrel : env2.relay with
      | error e => rw [hrel] at hr2; simp at hr2
      | ok u =>
        rw [hrel] at hr2
        have h := Except.ok.inj hr2
        exact Or.inl (by rw [← h]; rfl)

/-- Witness for C3: cache and archive miss, origin answers 200. -/
theorem origin_success_backfills_once_witness :
    (∃ ev, AlwaysOnline.connect demoCfg envC3 ("example.com") ("80") ("https") ("GET")
        ("https://example.com/a") =
        Except.ok ⟨true, strB ("ORIGIN BODY"),
          push_cache_to_elasticsearch demoCfg envC3.indexOutcome envC3.esStore
            (target_url ("https") ("example.com") ("80") ("https://example.com/a"))
            (strB ("ORIGIN BODY")) envC3.timestamp, ev⟩ ∧
      cachePuts ev = [Event.cachePutCall
        (target_url ("https") ("example.com") ("80") ("https://example.com/a"))
        (strB ("ORIGIN BODY"))]) ∧
    (∀ (env2 : ChainEnv) (w2 p2 sch2 m2 u2 : String) (r2 : ConnectResult),
      AlwaysOnline.connect demoCfg env2 w2 p2 sch2 m2 u2 = Except.ok r2 →
      cachePuts r2.events = [] ∨
      ∃ B2, fetch_origin_server demoCfg env2.originGet (target_url sch2 w2 p2 u2) = (200, B2) ∧
        (fetch_cache_from_elasticsearch demoCfg env2.esFault env2.esStore
          (target_url sch2 w2 p2 u2)).1 ≠ 200 ∧
        (∃ q, fetch_cache_from_internet_archive env2.wayback (target_url sch2 w2 p2 u2)
            = Except.ok q ∧ q.1 ≠ 200) ∧
        cachePuts r2.events = [Event.cachePutCall (target_url sch2 w2 p2 u2) B2]) :=
  origin_success_backfills_once demoCfg envC3 ("example.com") ("80") ("https")
    ("https://example.com/a") 404 404 [] [] (strB ("ORIGIN BODY"))
    rfl rfl (by decide) rfl (by decide) rfl

/-- C5: when all four sources answer non-200, connect returns resolved
false with an empty body, an unchanged store and no cache put; and in
every GET run, resolved false arises only when cache, archive, origin
and search all answered non-200. -/
theorem exhaustion_returns_unresolved (cfg : Config) (env : ChainEnv)
    (webserver port scheme url : String) (s1 s2 s3 s4 : Nat) (c1 c2 c3 c4 : Bytes)
    (hsend : env.connSend = Except.ok ())
    (h1 : fetch_cache_from_elasticsearch cfg env.esFault env.esStore
      (target_url scheme webserver port url) = (s1, c1)) (hs1 : s1 ≠ 200)
    (hw : fetch_cache_from_internet_archive env.wayback
      (target_url scheme webserver port url) = Except.ok (s2, c2)) (hs2 : s2 ≠ 200)
    (ho : fetch_origin_server cfg env.originGet
      (target_url scheme webserver port url) = (s3, c3)) (hs3 : s3 ≠ 200)
    (hq : query_to_serp cfg env.serpGet
      (target_url scheme webserver port url) = (s4, c4)) (hs4 : s4 ≠ 200) :
    (AlwaysOnline.connect cfg env webserver port scheme ("GET") url =
      Except.ok ⟨false, [], env.esStore,
        chainOrder (target_url scheme webserver port url)⟩ ∧
      cachePuts (chainOrder (target_url scheme webserver port url)) = []) ∧
    (∀ (env2 : ChainEnv) (w2 p2 sch2 u2 : String) (r2 : ConnectResult),
      AlwaysOnline.connect cfg env2 w2 p2 sch2 ("GET") u2 = Except.ok r2 →
      r2.connected = false →
      (fetch_cache_from_elasticsearch cfg env2.esFault env2.esStore
        (target_url sch2 w2 p2 u2)).1 ≠ 200 ∧
      (∃ q, fetch_cache_from_internet_archive env2.wayback (target_url sch2 w2 p2 u2)
          = Except.ok q ∧ q.1 ≠ 200) ∧
      (fetch_origin_server cfg env2.originGet (target_url sch2 w2 p2 u2)).1 ≠ 200 ∧
      (query_to_serp cfg env2.serpGet (target_url sch2 w2 p2 u2)).1 ≠ 200) := by
  constructor
  · constructor
    · rw [connect_eq_exhausted cfg env webserver port scheme url s1 s2 s3 s4
        c1 c2 c3 c4 h1 hs1 hw hs2 ho hs3 hq hs4, hsend]
      rfl
    · rfl
  · intro env2 w2 p2 sch2 u2 r2 hr2 hconn
    obtain ⟨t2, ht2, s1b, c1b, h1b, hcase⟩ :=
      connect_GET_run cfg env2 w2 p2 sch2 u2 r2 hr2
    subst ht2
    rcases hcase with ⟨_, hrq⟩ | ⟨hs1b, s2b, c2b, hwb, hcase⟩
    · subst hrq; simp at hconn
    · rcases hcase with ⟨_, hrq⟩ | ⟨hs2b, s3b, c3b, h3b, hcase⟩
      · subst hrq; simp at hconn
      · rcases hcase with ⟨_, hrq⟩ | ⟨hs3b, s4b, c4b, h4b, hcase⟩
        · subst hrq; simp at hconn
        · rcases hcase with ⟨_, hrq⟩ | ⟨hs4b, hrq⟩
          · subst hrq; simp at hconn
          · refine ⟨?_, ⟨(s2b, c2b), hwb, hs2b⟩, ?_, ?_⟩
            · rw [h1b]; exact hs1b
            · rw [h3b]; exact hs3b
            · rw [h4b]; exact hs4b

/-- Witness for C5: every source answers non-200. -/
theorem exhaustion_returns_unresolved_witness :
    (AlwaysOnline.connect demoCfg envC5 ("example.com") ("80") ("https") ("GET")
      ("https://example.com/a") =
      Except.ok ⟨false, [], envC5.esStore,
        chainOrder (target_url ("https") ("example.com") ("80")
          ("https://example.com/a"))⟩ ∧
      cachePuts (chainOrder (target_url ("https") ("example.com") ("80")
        ("https://example.com/a"))) = []) ∧
    (∀ (env2 : ChainEnv) (w2 p2 sch2 u2 : String) (r2 : ConnectResult),
      AlwaysOnline.connect demoCfg env2 w2 p2 sch2 ("GET") u2 = Except.ok r2 →
      r2.connected = false →
      (fetch_cache_from_elasticsearch demoCfg env2.esFault env2.esStore
        (target_url sch2 w2 p2 u2)).1 ≠ 200 ∧
      (∃ q, fetch_cache_from_internet_archive env2.wayback (target_url sch2 w2 p2 u2)
          = Except.ok q ∧ q.1 ≠ 200) ∧
      (fetch_origin_server demoCfg env2.originGet (target_url sch2 w2 p2 u2)).1 ≠ 200 ∧
      (query_to_serp demoCfg env2.serpGet (target_url sch2 w2 p2 u2)).1 ≠ 200) :=
  exhaustion_returns_unresolved demoCfg envC5 ("example.com") ("80") ("https")
    ("https://example.com/a") 404 404 500 500 [] [] []
    (strB ("SERP API server returned status code 500"))
    rfl rfl (by decide) rfl (by decide) rfl (by decide) rfl (by decide)

/-- C8: when the origin answered 200 with body B, a failing cache put —
whether the content fails to decode or the index call raises — is
swallowed: connect still resolves with body B and the store is left
unchanged. -/
theorem cache_put_failure_swallowed (cfg : Config) (env : ChainEnv)
    (webserver port scheme url : String) (s1 s2 : Nat) (c1 c2 B : Bytes) (msg : String)
    (hsend : env.connSend = Except.ok ())
    (h1 : fetch_cache_from_elasticsearch cfg env.esFault env.esStore
      (target_url scheme webserver port url) = (s1, c1)) (hs1 : s1 ≠ 200)
    (hw : fetch_cache_from_internet_archive env.wayback
      (target_url scheme webserver port url) = Except.ok (s2, c2)) (hs2 : s2 ≠ 200)
    (ho : fetch_origin_server cfg env.originGet
      (target_url scheme webserver port url) = (200, B))
    (hfail : env.indexOutcome = IndexOutcome.raised msg ∨
      cfg.decode B = Except.error msg) :
    AlwaysOnline.connect cfg env webserver port scheme ("GET") url =
      Except.ok ⟨true, B, env.esStore,
        [Event.esGetCall (target_url scheme webserver port url),
         Event.waybackCall (target_url scheme webserver port url),
         Event.originCall (target_url scheme webserver port url),
         Event.cachePutCall (target_url scheme webserver port url) B]⟩ := by
  rw [connect_eq_origin_hit cfg env webserver port scheme url s1 s2 c1 c2 B
    h1 hs1 hw hs2 ho, hsend]
  have hpush : push_cache_to_elasticsearch cfg env.indexOutcome env.esStore
      (target_url scheme webserver port url) B env.timestamp = env.esStore := by
    unfold push_cache_to_elasticsearch
    rcases hfail with hf | hf
    · cases hdec : cfg.decode B with
      | error e => simp [hdec]
      | ok s => simp [hdec, hf]
    · simp [hf]
  rw [hpush]
  rfl

/-- Witness for C8: the index call raises, yet connect still resolves
with the origin body and the store stays empty. -/
theorem cache_put_failure_swallowed_witness :
    envC8.indexOutcome = IndexOutcome.raised ("es down") ∧
    AlwaysOnline.connect demoCfg envC8 ("example.com") ("80") ("https") ("GET")
      ("https://example.com/a") =
      Except.ok ⟨true, strB ("ORIGIN BODY"), envC8.esStore,
        [Event.esGetCall (target_url ("https") ("example.com") ("80")
           ("https://example.com/a")),
         Event.waybackCall (target_url ("https") ("example.com") ("80")
           ("https://example.com/a")),
         Event.originCall (target_url ("https") ("example.com") ("80")
           ("https://example.com/a")),
         Event.cachePutCall (target_url ("https") ("example.com") ("80")
           ("https://example.com/a")) (strB ("ORIGIN BODY"))]⟩ :=
  ⟨rfl,
   cache_put_failure_swallowed demoCfg envC8 ("example.com") ("80") ("https")
     ("https://example.com/a") 404 404 [] [] (strB ("ORIGIN BODY")) ("es down")
     rfl rfl (by decide) rfl (by decide) rfl (Or.inl rfl)⟩

/-- C9: for every non-GET request connect returns False (connected is
never set on the relay path), even when the relay completes without
raising. -/
theorem non_get_returns_false (cfg : Config) (env : ChainEnv)
    (webserver port scheme method url : String) (hm : method ≠ ("GET"))
    (hrelay : env.relay = Except.ok ()) :
    AlwaysOnline.connect cfg env webserver port scheme method url =
      Except.ok ⟨false, [], env.esStore, [Event.relayCall]⟩ := by
  rw [connect_eq_relay cfg env webserver port scheme method url hm, hrelay]

/-- Witness for C9 with a POST request whose relay completes. -/
theorem non_get_returns_false_witness :
    (("POST") : String) ≠ ("GET") ∧
    AlwaysOnline.connect demoCfg envC1 ("example.com") ("80") ("https") ("POST")
      ("https://example.com/a")
      = Except.ok ⟨false, [], [], [Event.relayCall]⟩ :=
  ⟨by decide,
   non_get_returns_false demoCfg envC1 ("example.com") ("80") ("https") ("POST")
     ("https://example.com/a") (by decide) rfl⟩

end Caterpillar
